import Mathlib

/-!
Shallow embedding of `scripts/plot-spectrogram.py`.

The script is a straight-line pipeline: argument handling, a guarded
`import matplotlib`, a CSV read, a parse into a frequency axis /
timestamp list / reading matrix, three informational prints, and a
single render that is either saved to a file or shown interactively.

Modelling conventions:
* Python floats are modelled by exact rationals (`ℚ`).  Every number the
  script manipulates is a decimal literal from the CSV or an integer
  difference divided by 1000, so the rational model is exact for the
  values the claims are about.
* Side effects (stdout/stderr writes, the file open, the render, the
  save, the interactive show) are collected into an explicit trace,
  and the process outcome is `success` (exit 0), `exited c` (a clean
  `sys.exit(c)`), or `crashed e` (an uncaught Python exception, which
  terminates the process with a traceback and a generic nonzero exit).
* `str.split` on a one-character separator and `str.strip` are
  implemented by structural recursion on the character list, matching
  the Python semantics for these inputs.
-/

namespace PlotSpectrogram

/-- Command-line arguments of the script (after `argparse`):
`csvfile` positional, `-o` or `--output` optional, `--cmap` (default
`viridis`), `--vmin` (default `-80`), `--vmax` (default `-30`). -/
structure Args where
  csvfile : String
  output : Option String
  cmap : String
  vmin : ℚ
  vmax : ℚ
  deriving DecidableEq

/-- One observable side effect of a run of the script. -/
inductive Effect where
  /-- a line written to standard output (`print(...)`) -/
  | printOut (s : String)
  /-- a line written to standard error (`print(..., file=sys.stderr)`) -/
  | printErr (s : String)
  /-- the `open(path, 'r')` call -/
  | openFile (path : String)
  /-- the `ax.imshow(rssi_matrix, extent=extent, cmap=..., vmin=..., vmax=...)` call -/
  | render (matrix : List (List ℚ)) (extent : List ℚ) (cmap : String) (vmin vmax : ℚ)
  /-- the `plt.savefig(path, dpi=dpi)` call -/
  | saveFig (path : String) (dpi : Nat)
  /-- the `plt.show()` call (blocking interactive display) -/
  | showInteractive
  deriving DecidableEq

/-- How the process ends: exit 0, a clean `sys.exit c`, or an uncaught
exception (traceback on stderr, generic nonzero exit status). -/
inductive Result where
  | success
  | exited (code : Nat)
  | crashed (exc : String)
  deriving DecidableEq

/-- Characters removed by Python `str.strip()` (ASCII whitespace). -/
def isPySpace (c : Char) : Bool :=
  c = ' ' || c = '\t' || c = '\n' || c = '\r' || c = '\x0b' || c = '\x0c'

/-- Python `str.strip()` on a character list. -/
def stripChars (cs : List Char) : List Char :=
  ((cs.dropWhile isPySpace).reverse.dropWhile isPySpace).reverse

/-- Python `str.split(sep)` for a one-character separator: splitting the
empty string yields `[[]]`, and every occurrence of `sep` starts a new
group. -/
def splitOnChar (sep : Char) : List Char → List (List Char)
  | [] => [[]]
  | c :: rest =>
    if c = sep then
      [] :: splitOnChar sep rest
    else
      match splitOnChar sep rest with
      | [] => [[c]]
      | group :: groups => (c :: group) :: groups

/-- Model of `line.strip().split(',')` — the field decomposition the script
applies to the header and to every data line. -/
def pyFields (line : String) : List String :=
  (splitOnChar ',' (stripChars line.toList)).map String.mk

/-- Value of a decimal digit character, `none` on a non-digit. -/
def digitVal (c : Char) : Option Nat :=
  if c.isDigit then some (c.toNat - 48) else none

/-- Parse a nonempty-or-empty run of decimal digits as a natural number
(the empty run yields `0`; callers guard nonemptiness). -/
def parseNatDigits (cs : List Char) : Option Nat :=
  cs.foldlM (fun acc c => (digitVal c).map (fun d => acc * 10 + d)) 0

/-- Python `int(s)` restricted to base-10 integer literals with an
optional sign and surrounding whitespace; `none` models the
`ValueError` raised on malformed input. -/
def parseInt (s : String) : Option Int :=
  match stripChars s.toList with
  | '-' :: rest =>
      if rest.isEmpty then none
      else (parseNatDigits rest).map (fun n => -(n : Int))
  | '+' :: rest =>
      if rest.isEmpty then none
      else (parseNatDigits rest).map (fun n => (n : Int))
  | cs =>
      if cs.isEmpty then none
      else (parseNatDigits cs).map (fun n => (n : Int))

/-- Mantissa and denominator of an unsigned decimal literal:
`"12.5"` yields `(125, 10)`, `"50"` yields `(50, 1)`; `none` on
malformed input (no digits, a second dot, a non-digit). -/
def parseUnsignedParts (cs : List Char) : Option (Nat × Nat) :=
  let intPart := cs.takeWhile (fun c => c ≠ '.')
  match cs.dropWhile (fun c => c ≠ '.') with
  | [] =>
      if intPart.isEmpty then none
      else (parseNatDigits intPart).map (fun n => (n, 1))
  | _ :: fracPart =>
      if intPart.isEmpty && fracPart.isEmpty then none
      else do
        let ip ← parseNatDigits intPart
        let fp ← parseNatDigits fracPart
        some (ip * 10 ^ fracPart.length + fp, 10 ^ fracPart.length)

/-- Python `float(s)` restricted to the decimal forms the rf-scanner
CSV contains (optional sign, digits, optional fractional part, optional
surrounding whitespace); the value of `±m.f` is the exact rational
`± (mantissa) / 10^(fraction length)`.  `none` models the `ValueError`
on malformed input. -/
def parseFloat (s : String) : Option ℚ :=
  match stripChars s.toList with
  | '-' :: rest => (parseUnsignedParts rest).map (fun p => mkRat (-(p.1 : Int)) p.2)
  | '+' :: rest => (parseUnsignedParts rest).map (fun p => mkRat (p.1 : Int) p.2)
  | cs => (parseUnsignedParts cs).map (fun p => mkRat (p.1 : Int) p.2)

/-- Lines 37–38: `cols = header.split(',')`;
`freqs = [float(f) for f in cols[1:]]`.  `none` models the uncaught
`ValueError` when a header frequency field is malformed. -/
def pyHeaderFreqs (header : String) : Option (List ℚ) :=
  (pyFields header).tail.mapM parseFloat

/-- Lines 41–48: the data-row loop.  Each line is stripped and split on
`','`; a line with fewer than 2 fields is skipped (`continue`);
otherwise field 0 is parsed with `int` and fields 1.. with `float`,
and the pair is appended to the parallel `timestamps` / `rssi_data`
lists.  `none` models the uncaught `ValueError` on a malformed numeric
field anywhere in the file. -/
def parseRows : List String → Option (List Int × List (List ℚ))
  | [] => some ([], [])
  | line :: rest =>
      let parts := pyFields line
      if parts.length < 2 then
        parseRows rest
      else
        match parseInt (parts.headD ""), parts.tail.mapM parseFloat with
        | some t, some rs => (parseRows rest).map (fun p => (t :: p.1, rs :: p.2))
        | _, _ => none

/-- Lines 59–61: `t_start = timestamps[0]`;
`time_sec = (timestamps - t_start) / 1000.0`.  (`timestamps[0]` is only
evaluated on a nonempty list in the script; on `[]` this model yields
`[]` rather than an index fault, which is unreachable there.) -/
def timeSec (timestamps : List Int) : List ℚ :=
  timestamps.map (fun t => ((t : ℚ) - ((timestamps.headD 0 : Int) : ℚ)) / 1000)

/-- Zero-pad a digit string on the left to width `n`. -/
def padZeros (s : String) (n : Nat) : String :=
  String.mk (List.replicate (n - s.length) '0') ++ s

/-- Fixed-point rendering of the nonnegative rational `num / den` with
`n` fractional digits, rounding half away from zero:
the scaled integer is `⌊num/den · 10^n + 1/2⌋ = (2·num·10^n + den) / (2·den)`. -/
def formatFixedParts (num den n : Nat) : String :=
  let scaled := (2 * num * 10 ^ n + den) / (2 * den)
  let ip := scaled / 10 ^ n
  let fp := scaled % 10 ^ n
  if n = 0 then toString ip
  else toString ip ++ "." ++ padZeros (toString fp) n

/-- Python `f"{x:.nf}"` on the exact rational value: format the absolute
value to `n` fixed decimal places and restore the sign.  (CPython
rounds the underlying binary float half-to-even; on exact decimal
midpoints the two disagree, but no formatted value in the claims is a
midpoint.) -/
def formatFixed (x : ℚ) (n : Nat) : String :=
  if x.num < 0 then "-" ++ formatFixedParts x.num.natAbs x.den n
  else formatFixedParts x.num.natAbs x.den n

/-- Lines 31–34: the `print(f"Reading {args.csvfile}...")` followed by
the `open(args.csvfile, 'r')`. -/
def openTrace (args : Args) : List Effect :=
  [Effect.printOut ("Reading " ++ args.csvfile ++ "..."),
   Effect.openFile args.csvfile]

/-- Lines 85–89: `if args.output:` tests Python truthiness, which is
false for both `None` and the empty string, so a non-empty output path
is saved to at `dpi=150` followed by the confirmation print, and
anything else falls to the interactive `plt.show()`. -/
def outputEffects (output : Option String) : List Effect :=
  match output with
  | some out =>
      if out = "" then [Effect.showInteractive]
      else [Effect.saveFig out 150, Effect.printOut ("Saved to " ++ out)]
  | none => [Effect.showInteractive]

/-- Lines 50–89, taking the parse results of the header and of the data
lines.  A `none` parse is the uncaught `ValueError`; an empty reading
matrix reports to stderr and exits 1; an empty frequency list passes
that check and then faults with `IndexError` at `freqs[0]` while
formatting the frequency-range line (after the row/bin-count line has
been printed); otherwise the three info lines are printed and the
matrix is rendered with extent
`[freqs[0], freqs[-1], time_sec[-1], time_sec[0]]`. -/
def processParsed (args : Args) (freqs? : Option (List ℚ))
    (rows? : Option (List Int × List (List ℚ))) : List Effect × Result :=
  match freqs?, rows? with
  | some freqs, some (timestamps, rssi_data) =>
      if rssi_data = [] then
        (openTrace args ++ [Effect.printErr "Error: No data rows found in CSV"],
         Result.exited 1)
      else
        let time_sec := timeSec timestamps
        let info1 := Effect.printOut ("Loaded " ++ toString timestamps.length ++
          " frames, " ++ toString freqs.length ++ " frequency bins")
        match freqs.head?, freqs.getLast? with
        | some f0, some fN =>
            let info2 := Effect.printOut ("Frequency range: " ++ formatFixed f0 3 ++
              " - " ++ formatFixed fN 3 ++ " MHz")
            let info3 := Effect.printOut ("Duration: " ++
              formatFixed (time_sec.getLastD 0) 2 ++ " seconds")
            let extent := [f0, fN, time_sec.getLastD 0, time_sec.headD 0]
            (openTrace args ++ [info1, info2, info3,
              Effect.render rssi_data extent args.cmap args.vmin args.vmax] ++
              outputEffects args.output,
             Result.success)
        | _, _ => (openTrace args ++ [info1], Result.crashed "IndexError")
  | _, _ => (openTrace args, Result.crashed "ValueError")

/-- Lines 30–89 on the list of lines of the opened file: line 1 is the
header (stripped, split, fields 1.. parsed as frequencies), the rest
are the data lines. -/
def processFile (args : Args) (allLines : List String) : List Effect × Result :=
  processParsed args (pyHeaderFreqs (allLines.headD "")) (parseRows allLines.tail)

/-- The line decomposition performed by `f.readline()` +
`f.readlines()`: splitting the contents on `'\n'`.  (A trailing newline
yields one extra empty line that the Python `readlines` does not produce,
but an empty line is stripped to `""`, splits into one field, and is
skipped, so the two decompositions are observationally equal.) -/
def readFileLines (contents : String) : List String :=
  (splitOnChar '\n' contents.toList).map String.mk

/-- The function `main()`: `mplAvailable` is whether `import matplotlib.pyplot`
succeeds; `file` is `some contents` when `open(args.csvfile)` succeeds
and `none` when it raises `FileNotFoundError`.  The guarded import is
checked before any file I/O. -/
def pyMain (args : Args) (mplAvailable : Bool) (file : Option String) :
    List Effect × Result :=
  if mplAvailable then
    match file with
    | none => (openTrace args, Result.crashed "FileNotFoundError")
    | some contents => processFile args (readFileLines contents)
  else
    ([Effect.printErr "Error: matplotlib not installed. Install with: pip install matplotlib"],
     Result.exited 1)

/-- The standard-output lines of a trace, in order. -/
def stdoutLines (tr : List Effect) : List String :=
  tr.filterMap (fun e =>
    match e with
    | Effect.printOut s => some s
    | _ => none)

end PlotSpectrogram


namespace PlotSpectrogram

/-- The well-formed two-row CSV of the spec, with a trailing newline. -/
def sampleCsv : String := "t,1.0,2.0,3.0\n0,-50,-60,-70\n1000,-55,-65,-75\n"

/-- Arguments with every option left at its `argparse` default. -/
def defaultArgs : Args :=
  { csvfile := "spectrum.csv", output := none, cmap := "viridis", vmin := -80, vmax := -30 }

/-- Arguments with the optional output path supplied. -/
def argsWithOutput : Args :=
  { csvfile := "spectrum.csv", output := some "out.png", cmap := "viridis",
    vmin := -80, vmax := -30 }

/-- Arguments with the output option supplied as the empty string
(`-o ""` on the command line). -/
def argsWithEmptyOutput : Args :=
  { csvfile := "spectrum.csv", output := some "", cmap := "viridis",
    vmin := -80, vmax := -30 }

/-- A CSV whose header frequencies are not sorted ascending: the first
header frequency (2.0) is not the minimum (1.0). -/
def unsortedCsv : String := "t,2.0,1.0,3.0\n0,-50,-60,-70\n"

/-- Removing a line with fewer than 2 comma-separated fields anywhere in
the data-line list does not change the parse result. -/
theorem parseRows_skip (badLine : String) (h : (pyFields badLine).length < 2) :
    ∀ pre post : List String,
      parseRows (pre ++ badLine :: post) = parseRows (pre ++ post)
  | [], post => by
      rw [List.nil_append, List.nil_append, parseRows]
      simp only [if_pos h]
  | p :: pre, post => by
      rw [List.cons_append, List.cons_append, parseRows, parseRows,
        parseRows_skip badLine h pre post]

/-- C1: on the CSV with header `t,1.0,2.0,3.0` and data rows
`0,-50,-60,-70` and `1000,-55,-65,-75`, the parse yields the frequency
axis `[1.0, 2.0, 3.0]`, the timestamp list `[0, 1000]` with relative
time axis `[0.0, 1.0]`, and the reading matrix
`[[-50,-60,-70],[-55,-65,-75]]`, in file order. -/
theorem wellformed_csv_parse :
    pyHeaderFreqs ((readFileLines sampleCsv).headD "") = some [1, 2, 3] ∧
    parseRows (readFileLines sampleCsv).tail =
      some ([0, 1000], [[-50, -60, -70], [-55, -65, -75]]) ∧
    timeSec [0, 1000] = [0, 1] := by
  refine ⟨by decide, by decide, ?_⟩
  simp [timeSec]

/-- C2: a data line that splits into fewer than 2 fields is skipped
silently — the parsed timestamp and reading lists, and the whole
observable behaviour of the run, are the same as if the line were
absent, so later valid lines are unaffected and no warning is
emitted. -/
theorem short_line_skipped_silently (args : Args) (headerLine badLine : String)
    (pre post : List String) (h : (pyFields badLine).length < 2) :
    parseRows (pre ++ badLine :: post) = parseRows (pre ++ post) ∧
    processFile args (headerLine :: (pre ++ badLine :: post)) =
      processFile args (headerLine :: (pre ++ post)) := by
  refine ⟨parseRows_skip badLine h pre post, ?_⟩
  unfold processFile
  rw [List.headD_cons, List.headD_cons, List.tail_cons, List.tail_cons,
    parseRows_skip badLine h pre post]

theorem short_line_skipped_silently_witness :
    (pyFields "x").length < 2 ∧
    processFile defaultArgs ["t,1.0", "x", "0,-50"] =
      processFile defaultArgs ["t,1.0", "0,-50"] :=
  ⟨by decide,
   (short_line_skipped_silently defaultArgs "t,1.0" "x" [] ["0,-50"] (by decide)).2⟩

/-- C4: for every nonempty timestamp list the relative time axis is the
pointwise map `t ↦ (t - t₀) / 1000`, and its first entry is exactly `0`
whatever the absolute value of the first timestamp. -/
theorem relative_time_starts_at_zero (ts : List Int) (h : ts ≠ []) :
    (timeSec ts).head? = some 0 ∧
    timeSec ts = ts.map (fun t => ((t : ℚ) - ((ts.headD 0 : Int) : ℚ)) / 1000) := by
  obtain ⟨a, l, rfl⟩ := List.exists_cons_of_ne_nil h
  refine ⟨?_, rfl⟩
  simp [timeSec]

theorem relative_time_starts_at_zero_witness :
    (timeSec [123456789, 123456790]).head? = some 0 :=
  (relative_time_starts_at_zero [123456789, 123456790] (by decide)).1

/-- C5: when matplotlib is unavailable the run writes the install hint
to standard error and exits with code 1, and its trace contains no file
open — the dependency check strictly precedes all file I/O. -/
theorem missing_matplotlib_early_exit (args : Args) (file : Option String) :
    pyMain args false file =
      ([Effect.printErr "Error: matplotlib not installed. Install with: pip install matplotlib"],
       Result.exited 1) ∧
    ∀ p, Effect.openFile p ∉ (pyMain args false file).1 := by
  refine ⟨rfl, ?_⟩
  intro p hmem
  have h1 : pyMain args false file =
      ([Effect.printErr "Error: matplotlib not installed. Install with: pip install matplotlib"],
       Result.exited 1) := rfl
  rw [h1] at hmem
  simp at hmem

/-- C9: on a zero-byte file the header parse yields an empty frequency
list without faulting, zero data rows are found, the empty-dataset
error is reported on standard error, and the run exits cleanly with
code 1. -/
theorem empty_file_clean_error (args : Args) :
    pyHeaderFreqs ((readFileLines "").headD "") = some [] ∧
    parseRows (readFileLines "").tail = some ([], []) ∧
    pyMain args true (some "") =
      (openTrace args ++ [Effect.printErr "Error: No data rows found in CSV"],
       Result.exited 1) := by
  refine ⟨by decide, by decide, rfl⟩

end PlotSpectrogram

namespace PlotSpectrogram

/-- The explicit effect trace of a run that reaches the render: the
file is opened, the three info lines are printed, the matrix is
rendered with extent `[freqs[0], freqs[-1], time_sec[-1], time_sec[0]]`,
and the run either saves or shows. -/
theorem processParsed_success (args : Args) (freqs : List ℚ) (ts : List Int)
    (rows : List (List ℚ)) (f0 fN : ℚ) (hrows : rows ≠ [])
    (hhead : freqs.head? = some f0) (hlast : freqs.getLast? = some fN) :
    processParsed args (some freqs) (some (ts, rows)) =
      (openTrace args ++
        [Effect.printOut ("Loaded " ++ toString ts.length ++ " frames, " ++
           toString freqs.length ++ " frequency bins"),
         Effect.printOut ("Frequency range: " ++ formatFixed f0 3 ++ " - " ++
           formatFixed fN 3 ++ " MHz"),
         Effect.printOut ("Duration: " ++
           formatFixed ((timeSec ts).getLastD 0) 2 ++ " seconds"),
         Effect.render rows [f0, fN, (timeSec ts).getLastD 0, (timeSec ts).headD 0]
           args.cmap args.vmin args.vmax] ++
        outputEffects args.output,
       Result.success) := by
  simp only [processParsed, hhead, hlast, if_neg hrows]

/-- The same trace, stated for `processFile` on the line list of the
input, under the hypotheses that both parses succeed, at least one data
row was parsed, and the frequency list is nonempty. -/
theorem processFile_success (args : Args) (L : List String) (freqs : List ℚ)
    (ts : List Int) (rows : List (List ℚ)) (f0 fN : ℚ)
    (hf : pyHeaderFreqs (L.headD "") = some freqs)
    (hr : parseRows L.tail = some (ts, rows)) (hrows : rows ≠ [])
    (hhead : freqs.head? = some f0) (hlast : freqs.getLast? = some fN) :
    processFile args L =
      (openTrace args ++
        [Effect.printOut ("Loaded " ++ toString ts.length ++ " frames, " ++
           toString freqs.length ++ " frequency bins"),
         Effect.printOut ("Frequency range: " ++ formatFixed f0 3 ++ " - " ++
           formatFixed fN 3 ++ " MHz"),
         Effect.printOut ("Duration: " ++
           formatFixed ((timeSec ts).getLastD 0) 2 ++ " seconds"),
         Effect.render rows [f0, fN, (timeSec ts).getLastD 0, (timeSec ts).headD 0]
           args.cmap args.vmin args.vmax] ++
        outputEffects args.output,
       Result.success) := by
  unfold processFile
  rw [hf, hr]
  exact processParsed_success args freqs ts rows f0 fN hrows hhead hlast

/-- No render effect is produced by the save-or-show epilogue. -/
theorem render_not_mem_outputEffects (o : Option String) (m : List (List ℚ))
    (e : List ℚ) (c : String) (v w : ℚ) :
    Effect.render m e c v w ∉ outputEffects o := by
  cases o with
  | none => simp [outputEffects]
  | some out =>
      simp only [outputEffects]
      split <;> simp

/-- C3: when the parses succeed but zero data rows were found, the run
reports the empty-dataset error on standard error and exits with code
1, with no image file written and no interactive display attempted. -/
theorem empty_dataset_error_exit (args : Args) (contents : String)
    (freqs : List ℚ) (ts : List Int)
    (hf : pyHeaderFreqs ((readFileLines contents).headD "") = some freqs)
    (hr : parseRows (readFileLines contents).tail = some (ts, [])) :
    pyMain args true (some contents) =
      (openTrace args ++ [Effect.printErr "Error: No data rows found in CSV"],
       Result.exited 1) ∧
    (∀ p d, Effect.saveFig p d ∉ (pyMain args true (some contents)).1) ∧
    Effect.showInteractive ∉ (pyMain args true (some contents)).1 := by
  have h1 : pyMain args true (some contents) =
      processFile args (readFileLines contents) := rfl
  have h2 : processFile args (readFileLines contents) =
      (openTrace args ++ [Effect.printErr "Error: No data rows found in CSV"],
       Result.exited 1) := by
    unfold processFile
    rw [hf, hr]
    simp only [processParsed, if_pos]
  refine ⟨h1.trans h2, ?_, ?_⟩
  · intro p d hmem
    rw [h1, h2] at hmem
    simp [openTrace] at hmem
  · intro hmem
    rw [h1, h2] at hmem
    simp [openTrace] at hmem

theorem empty_dataset_error_exit_witness :
    pyMain defaultArgs true (some "t,1.0\n") =
      (openTrace defaultArgs ++ [Effect.printErr "Error: No data rows found in CSV"],
       Result.exited 1) :=
  (empty_dataset_error_exit defaultArgs "t,1.0\n" [1] [] (by decide) (by decide)).1

/-- C6 (amended): on a run that reaches the render, supplying a
non-empty output path saves exactly to that path (at dpi 150) and
prints the confirmation line without any interactive display, while
omitting the path shows interactively and writes no image file.  The
non-emptiness qualification is forced by the code: line 85 tests the
Python truthiness of the option, and the empty string is falsy, so a
supplied empty path shows interactively (see the C6 counterexample
below).  (The matrix-shape hypothesis is the format invariant; on
ragged matrices the delegated numpy and matplotlib behaviour is
undefined and the run is not a normal render.) -/
theorem output_option_save_or_show (args : Args) (contents : String)
    (freqs : List ℚ) (ts : List Int) (rows : List (List ℚ)) (f0 fN : ℚ)
    (hf : pyHeaderFreqs ((readFileLines contents).headD "") = some freqs)
    (hr : parseRows (readFileLines contents).tail = some (ts, rows))
    (hrows : rows ≠ []) (hhead : freqs.head? = some f0)
    (hlast : freqs.getLast? = some fN)
    (_hshape : ∀ r ∈ rows, r.length = freqs.length) :
    (∀ out, args.output = some out → out ≠ "" →
      Effect.saveFig out 150 ∈ (pyMain args true (some contents)).1 ∧
      Effect.printOut ("Saved to " ++ out) ∈ (pyMain args true (some contents)).1 ∧
      (∀ p d, Effect.saveFig p d ∈ (pyMain args true (some contents)).1 →
        p = out ∧ d = 150) ∧
      Effect.showInteractive ∉ (pyMain args true (some contents)).1) ∧
    (args.output = none →
      Effect.showInteractive ∈ (pyMain args true (some contents)).1 ∧
      ∀ p d, Effect.saveFig p d ∉ (pyMain args true (some contents)).1) := by
  have h2 := processFile_success args (readFileLines contents) freqs ts rows f0 fN
    hf hr hrows hhead hlast
  have h1 : pyMain args true (some contents) =
      processFile args (readFileLines contents) := rfl
  rw [h1, h2]
  constructor
  · intro out hout hne
    rw [hout]
    simp [openTrace, outputEffects, hne]
  · intro hout
    rw [hout]
    simp [openTrace, outputEffects]

theorem output_option_save_or_show_witness :
    Effect.saveFig "out.png" 150 ∈ (pyMain argsWithOutput true (some sampleCsv)).1 :=
  (((output_option_save_or_show argsWithOutput sampleCsv [1, 2, 3] [0, 1000]
    [[-50, -60, -70], [-55, -65, -75]] 1 3 (by decide) (by decide) (by decide)
    (by decide) (by decide) (by decide)).1 "out.png" rfl (by decide))).1

/-- C6 counterexample: with the output path supplied as the empty
string the program writes no image at the supplied path and attempts
the blocking interactive display instead, because line 85 tests the
Python truthiness of the option and the empty string is falsy — the
original claim asserted a save for every supplied path. -/
theorem output_option_save_or_show_counterexample :
    argsWithEmptyOutput.output = some "" ∧
    Effect.saveFig "" 150 ∉ (pyMain argsWithEmptyOutput true (some sampleCsv)).1 ∧
    Effect.showInteractive ∈ (pyMain argsWithEmptyOutput true (some sampleCsv)).1 := by
  have h2 := processFile_success argsWithEmptyOutput (readFileLines sampleCsv)
    [1, 2, 3] [0, 1000] [[-50, -60, -70], [-55, -65, -75]] 1 3
    (by decide) (by decide) (by decide) (by decide) (by decide)
  have h1 : pyMain argsWithEmptyOutput true (some sampleCsv) =
      processFile argsWithEmptyOutput (readFileLines sampleCsv) := rfl
  refine ⟨rfl, ?_, ?_⟩
  · rw [h1, h2]
    simp [openTrace, outputEffects, argsWithEmptyOutput]
  · rw [h1, h2]
    simp [openTrace, outputEffects, argsWithEmptyOutput]

/-- C7 (amended): on a run that reaches the render, the standard-output
lines are exactly the reading banner followed by the three
informational lines — the row and bin counts, the frequency range
reported as the first and last header frequency formatted to 3 decimal
places, and the duration formatted to 2 decimal places — followed by
the save confirmation exactly when an output path was given.  The
range line prints `freqs[0]` and `freqs[-1]` (line 64), first and last
in header order, which are not the minimum and maximum when the header
is not sorted ascending: see the C7 counterexample below.  (The
matrix-shape hypothesis is the format invariant; on ragged matrices
the delegated numpy and matplotlib behaviour is undefined and the run
is not a normal render.) -/
theorem three_info_lines (args : Args) (contents : String)
    (freqs : List ℚ) (ts : List Int) (rows : List (List ℚ)) (f0 fN : ℚ)
    (hf : pyHeaderFreqs ((readFileLines contents).headD "") = some freqs)
    (hr : parseRows (readFileLines contents).tail = some (ts, rows))
    (hrows : rows ≠ []) (hhead : freqs.head? = some f0)
    (hlast : freqs.getLast? = some fN)
    (_hshape : ∀ r ∈ rows, r.length = freqs.length) :
    stdoutLines (pyMain args true (some contents)).1 =
      ["Reading " ++ args.csvfile ++ "...",
       "Loaded " ++ toString ts.length ++ " frames, " ++
         toString freqs.length ++ " frequency bins",
       "Frequency range: " ++ formatFixed f0 3 ++ " - " ++
         formatFixed fN 3 ++ " MHz",
       "Duration: " ++ formatFixed ((timeSec ts).getLastD 0) 2 ++ " seconds"] ++
      stdoutLines (outputEffects args.output) := by
  have h2 := processFile_success args (readFileLines contents) freqs ts rows f0 fN
    hf hr hrows hhead hlast
  have h1 : pyMain args true (some contents) =
      processFile args (readFileLines contents) := rfl
  rw [h1, h2]
  simp [stdoutLines, openTrace]

theorem three_info_lines_witness :
    stdoutLines (pyMain defaultArgs true (some sampleCsv)).1 =
      ["Reading " ++ defaultArgs.csvfile ++ "...",
       "Loaded " ++ toString ([0, 1000] : List Int).length ++ " frames, " ++
         toString ([1, 2, 3] : List ℚ).length ++ " frequency bins",
       "Frequency range: " ++ formatFixed 1 3 ++ " - " ++
         formatFixed 3 3 ++ " MHz",
       "Duration: " ++ formatFixed ((timeSec [0, 1000]).getLastD 0) 2 ++ " seconds"] ++
      stdoutLines (outputEffects defaultArgs.output) :=
  three_info_lines defaultArgs sampleCsv [1, 2, 3] [0, 1000]
    [[-50, -60, -70], [-55, -65, -75]] 1 3 (by decide) (by decide) (by decide)
    (by decide) (by decide) (by decide)

/-- C7 counterexample: on the unsorted header `t,2.0,1.0,3.0` the
parsed axis is `[2, 1, 3]`, whose minimum is 1 and maximum is 3, yet
standard output carries the range line rendered from the first and
last header frequencies (`2.000 - 3.000`) and not the line rendered
from the minimum and maximum (`1.000 - 3.000`) — refuting the original
claim that the range is reported as the minimum and maximum
frequency. -/
theorem three_info_lines_counterexample :
    min (2 : ℚ) (min 1 3) = 1 ∧ max (2 : ℚ) (max 1 3) = 3 ∧
    pyHeaderFreqs ((readFileLines unsortedCsv).headD "") = some [2, 1, 3] ∧
    ("Frequency range: " ++ formatFixed 1 3 ++ " - " ++ formatFixed 3 3 ++ " MHz") ∉
      stdoutLines (pyMain defaultArgs true (some unsortedCsv)).1 ∧
    ("Frequency range: " ++ formatFixed 2 3 ++ " - " ++ formatFixed 3 3 ++ " MHz") ∈
      stdoutLines (pyMain defaultArgs true (some unsortedCsv)).1 := by
  have h2 := processFile_success defaultArgs (readFileLines unsortedCsv) [2, 1, 3] [0]
    [[-50, -60, -70]] 2 3 (by decide) (by decide) (by decide) (by decide) (by decide)
  have h1 : pyMain defaultArgs true (some unsortedCsv) =
      processFile defaultArgs (readFileLines unsortedCsv) := rfl
  have hdur : (timeSec [0]).getLastD 0 = 0 := by simp [timeSec]
  rw [h1, h2, hdur]
  refine ⟨by norm_num [min_def], by norm_num [max_def], by decide, ?_, ?_⟩
  · decide
  · decide

/-- C8: on a run that reaches the render, the image is rendered with
horizontal extent from the first to the last header frequency and
vertical extent from the last to the first relative time (inverted, so
time increases downward), and no render with any other extent occurs.  (The matrix-shape
hypothesis is the format invariant; on ragged matrices the delegated
numpy and matplotlib behaviour is undefined and the run is not a
normal render.) -/
theorem render_extent_axes (args : Args) (contents : String)
    (freqs : List ℚ) (ts : List Int) (rows : List (List ℚ)) (f0 fN : ℚ)
    (hf : pyHeaderFreqs ((readFileLines contents).headD "") = some freqs)
    (hr : parseRows (readFileLines contents).tail = some (ts, rows))
    (hrows : rows ≠ []) (hhead : freqs.head? = some f0)
    (hlast : freqs.getLast? = some fN)
    (_hshape : ∀ r ∈ rows, r.length = freqs.length) :
    Effect.render rows [f0, fN, (timeSec ts).getLastD 0, (timeSec ts).headD 0]
      args.cmap args.vmin args.vmax ∈ (pyMain args true (some contents)).1 ∧
    ∀ m e c v w, Effect.render m e c v w ∈ (pyMain args true (some contents)).1 →
      e = [f0, fN, (timeSec ts).getLastD 0, (timeSec ts).headD 0] := by
  have h2 := processFile_success args (readFileLines contents) freqs ts rows f0 fN
    hf hr hrows hhead hlast
  have h1 : pyMain args true (some contents) =
      processFile args (readFileLines contents) := rfl
  rw [h1, h2]
  constructor
  · simp
  · intro m e c v w hmem
    rw [List.mem_append] at hmem
    rcases hmem with hmem | hmem
    · simp [openTrace] at hmem
      simp only [List.getLastD_eq_getLast?, List.headD_eq_head?]
      exact hmem.2.1
    · exact absurd hmem (render_not_mem_outputEffects args.output m e c v w)

theorem render_extent_axes_witness :
    Effect.render [[-50, -60, -70], [-55, -65, -75]]
      [1, 3, (timeSec [0, 1000]).getLastD 0, (timeSec [0, 1000]).headD 0]
      defaultArgs.cmap defaultArgs.vmin defaultArgs.vmax ∈
      (pyMain defaultArgs true (some sampleCsv)).1 :=
  (render_extent_axes defaultArgs sampleCsv [1, 2, 3] [0, 1000]
    [[-50, -60, -70], [-55, -65, -75]] 1 3 (by decide) (by decide) (by decide)
    (by decide) (by decide) (by decide)).1

end PlotSpectrogram
